import Mathlib

/-!
Verification of the MCP-RAG-Playground retrieval pipeline.

This file gives a shallow embedding of the core data model and operations of
the repository (query normalization, the retriever's filtering and lazy
collection creation, batch coordination, confidence scoring, enhanced search
results, and the text chunker), translated from the Python source, and proves
or refutes the specified properties about them.

Conventions of the embedding:
* Python strings are Lean `String`s; character-level work is done on
  `List Char` (`String.data`).
* Python floats (similarity scores, confidence) are modelled as exact
  rationals `ℚ`; `round(x, 3)` is modelled by round-half-to-even at three
  decimals, which is Python's documented rounding mode.
* Collaborators (embedding service, storage engine) are modelled as an
  explicit environment of oracle functions; invocations of collaborators are
  recorded in an explicit call trace.
* A raised Python exception is modelled as `none` / an error value; operations
  whose Python code wraps everything in `try/except` are total functions.
-/

/-! ### Python string primitives -/

/-- Python's `\s` class over ASCII: space, tab, newline, carriage return,
vertical tab, form feed. -/
def pySpace (c : Char) : Bool :=
  c = ' ' || c = '\t' || c = '\n' || c = '\r' || c = '\x0b' || c = '\x0c'

/-- Python `str.strip()` on a character list: drop leading and trailing
whitespace. -/
def stripChars (l : List Char) : List Char :=
  ((l.dropWhile pySpace).reverse.dropWhile pySpace).reverse

/-- Python `str.strip()`. -/
def pyStrip (s : String) : String :=
  ⟨stripChars s.data⟩

/-- Helper for `collapseWs`: `inRun` records whether the previous character
belonged to a whitespace run that has already emitted its single space. -/
def collapseWsAux : Bool → List Char → List Char
  | _, [] => []
  | inRun, c :: cs =>
    if pySpace c then
      if inRun then collapseWsAux true cs
      else ' ' :: collapseWsAux true cs
    else c :: collapseWsAux false cs

/-- `re.sub(r'\s+', ' ', ·)`: replace every maximal run of whitespace by a
single space. -/
def collapseWs (l : List Char) : List Char :=
  collapseWsAux false l

/-- Helper for `pySplit`: `acc` is the reversed current word. -/
def pySplitAux : List Char → List Char → List String
  | acc, [] => if acc.isEmpty then [] else [⟨acc.reverse⟩]
  | acc, c :: cs =>
    if pySpace c then
      if acc.isEmpty then pySplitAux [] cs
      else ⟨acc.reverse⟩ :: pySplitAux [] cs
    else pySplitAux (c :: acc) cs

/-- Python `str.split()` (no separator argument): split on whitespace runs,
producing no empty words. -/
def pySplit (l : List Char) : List String :=
  pySplitAux [] l

/-- Python `str.lower()` restricted to ASCII (the spec's "ASCII-safe"
case folding). -/
def pyLower (l : List Char) : List Char :=
  l.map Char.toLower

/-! ### Query normalization, Retriever path
(`VectorClient._preprocess_query` in `vectordb/vector_client.py`). -/

/-- Python's `\w` over ASCII: letters, digits, underscore. -/
def wordChar (c : Char) : Bool :=
  c.isAlpha || c.isDigit || c = '_'

/-- `re.sub(r"[^\w\s\-\']", ' ', ·)`: replace every character outside
word/whitespace/hyphen/apostrophe by a space. -/
def replaceSpecialChars (l : List Char) : List Char :=
  l.map fun c => if wordChar c || pySpace c || c = '-' || c = '\x27' then c else ' '

/-- The abbreviation table of `VectorClient._preprocess_query`. -/
def vcExpansions : List (String × String) :=
  [("db", "database"),
   ("ai", "artificial intelligence"),
   ("ml", "machine learning"),
   ("api", "application programming interface"),
   ("ui", "user interface"),
   ("ux", "user experience")]

/-- The expansion loop of `VectorClient._preprocess_query`: a word that is a
table key is kept and its expansion is appended right after it
(`expanded_words.extend([word, expansions[word]])`); other words pass
through. -/
def vcExpandWords : List String → List String
  | [] => []
  | w :: ws =>
    match vcExpansions.lookup w with
    | some e => w :: e :: vcExpandWords ws
    | none => w :: vcExpandWords ws

/-- `VectorClient._preprocess_query`: strip and collapse whitespace,
lowercase, replace special characters by spaces, split, expand abbreviations,
and rejoin with single spaces. -/
def preprocessQuery (queryText : String) : String :=
  let cleaned := replaceSpecialChars (pyLower (collapseWs (stripChars queryText.data)))
  String.intercalate " " (vcExpandWords (pySplit cleaned))

/-! ### Query normalization, question-answering path
(`QueryProcessor.expand_abbreviations` in `models/qa_models.py`). -/

/-- The abbreviation table of `QueryProcessor.expand_abbreviations`. -/
def qaAbbreviations : List (String × String) :=
  [("db", "database"),
   ("ai", "artificial intelligence"),
   ("ml", "machine learning"),
   ("api", "application programming interface"),
   ("ui", "user interface"),
   ("ux", "user experience"),
   ("cpu", "central processing unit"),
   ("gpu", "graphics processing unit"),
   ("ram", "random access memory"),
   ("os", "operating system"),
   ("js", "javascript"),
   ("py", "python"),
   ("css", "cascading style sheets"),
   ("html", "hypertext markup language"),
   ("http", "hypertext transfer protocol"),
   ("https", "hypertext transfer protocol secure"),
   ("url", "uniform resource locator"),
   ("json", "javascript object notation"),
   ("xml", "extensible markup language"),
   ("sql", "structured query language")]

/-- The punctuation set of `word.strip('.,!?;:')`. -/
def qaPunct (c : Char) : Bool :=
  c = '.' || c = ',' || c = '!' || c = '?' || c = ';' || c = ':'

/-- Python `word.strip('.,!?;:')`: drop those characters from both ends. -/
def stripPunct (l : List Char) : List Char :=
  ((l.dropWhile qaPunct).reverse.dropWhile qaPunct).reverse

/-- `QueryProcessor.expand_abbreviations`: lowercase, split on whitespace,
and map each word to its table expansion (matching after stripping the
punctuation `.,!?;:` from both ends) — the expansion REPLACES the word —
otherwise keep the word; rejoin with single spaces. -/
def expandAbbreviations (query : String) : String :=
  let words := pySplit (pyLower query.data)
  String.intercalate " " (words.map fun w =>
    match qaAbbreviations.lookup ⟨stripPunct w.data⟩ with
    | some e => e
    | none => w)

/-- Substring test on character lists (used to state the "contains" claims). -/
def prefixEq : List Char → List Char → Bool
  | [], _ => true
  | _ :: _, [] => false
  | p :: ps, c :: cs => p = c && prefixEq ps cs

/-- Whether `pat` occurs as a contiguous substring of `l`. -/
def hasSubstring (l pat : List Char) : Bool :=
  match l with
  | [] => prefixEq pat []
  | _ :: cs => prefixEq pat l || hasSubstring cs pat

/-- String-level substring occurrence. -/
def strHasSubstring (s pat : String) : Bool :=
  hasSubstring s.data pat.data

/-! ### Data model (`vectordb/vector_db_interface.py`) -/

/-- A metadata value (Python `Any` restricted to the value shapes the
pipeline actually stores in metadata maps). -/
inductive MetaVal where
  | str (s : String)
  | nat (n : Nat)
  | int (i : Int)
  deriving DecidableEq, Repr

/-- A Python `datetime` is opaque to this layer; the embedding keeps either
its `%Y-%m-%d` rendering (for the `datetime` branch of citation generation)
or a raw ISO string (for the `str` branch). -/
inductive PyTimestamp where
  | dt (dateRendered : String)
  | iso (s : String)
  deriving DecidableEq, Repr

/-- `Document` dataclass of `vector_db_interface.py` (validation of
`__post_init__` is not needed by the claims under proof and documents are
used as opaque payloads by the retriever). -/
structure Document where
  content : String
  metadata : List (String × MetaVal)
  id : Option String := none
  filename : Option String := none
  fileType : Option String := none
  ingestionTimestamp : Option PyTimestamp := none
  chunkCount : Option Int := none
  fileSize : Option Int := none
  chunkPosition : Option Int := none
  vectorId : Option String := none
  embeddingStatus : String := "pending"
  deriving DecidableEq, Repr

/-- `SearchResult` dataclass: a retrieved candidate with similarity score
and raw distance. Scores are modelled as exact rationals. -/
structure SearchResult where
  document : Document
  score : ℚ
  distance : ℚ
  deriving DecidableEq, Repr

/-! ### Collaborator environment and call traces

`VectorClient` (in `vectordb/vector_client.py`) talks to two collaborators:
the embedding service and the storage engine (`VectorDBInterface`).  The
embedding captures them as an environment of pure oracles plus explicit
per-call traces, so that "collaborator X was invoked" is a statable
property. -/

/-- One collaborator invocation made by `VectorClient`. -/
inductive CollabCall where
  | getDimension
  | collectionExistsQ
  | createCollection
  | embedText (query : String)
  | embedTexts (texts : List String)
  | storageSearch (embedding : List ℚ) (limit : Nat)
  | insertDocuments (docs : List Document)
  deriving DecidableEq, Repr

/-- The collaborator environment: responses of the embedding service and the
storage engine, assumed deterministic within a call (spec §6). -/
structure Env where
  dimension : Nat
  collectionFound : Bool
  createOk : Bool
  embed : String → List ℚ
  searchRes : List ℚ → Nat → List SearchResult
  insertOk : Bool

/-- `VectorClient._ensure_collection_exists` for a client whose
`_initialized` flag is `provisioned`.  Returns `none` when the Python code
raises `RuntimeError` (collection reported absent and creation failed),
otherwise `some` of the new `_initialized` flag; paired with the trace of
collaborator calls made. -/
def ensureCollectionExists (env : Env) (provisioned : Bool) :
    Option Bool × List CollabCall :=
  if provisioned then (some true, [])
  else
    -- dimension := embedding_service.get_dimension(); collection_exists(...)
    if env.collectionFound then
      (some true, [CollabCall.getDimension, CollabCall.collectionExistsQ])
    else if env.createOk then
      (some true, [CollabCall.getDimension, CollabCall.collectionExistsQ,
                   CollabCall.createCollection])
    else
      -- create_collection returned False: raise RuntimeError (not initialized)
      (none, [CollabCall.getDimension, CollabCall.collectionExistsQ,
              CollabCall.createCollection])

/-- `VectorClient.query`: ensure the collection exists, preprocess the query,
embed it, run the storage search, and filter by `min_score`.  The whole body
is wrapped in `try/except` returning `[]`, so a `RuntimeError` from lazy
collection creation is caught and converted to the empty list.  Returns
(results, collaborator-call trace, new `_initialized` flag). -/
def vcQuery (env : Env) (provisioned : Bool) (queryText : String)
    (limit : Nat) (minScore : ℚ) :
    List SearchResult × List CollabCall × Bool :=
  match ensureCollectionExists env provisioned with
  | (none, calls) => ([], calls, provisioned)
  | (some _, calls) =>
    let processedQuery := preprocessQuery queryText
    let queryEmbedding := env.embed processedQuery
    let results := env.searchRes queryEmbedding limit
    let filteredResults := results.filter fun r => decide (minScore ≤ r.score)
    (filteredResults, calls ++ [CollabCall.embedText processedQuery,
                                CollabCall.storageSearch queryEmbedding limit],
     true)

/-- `VectorClient.upload`: ensure the collection exists, process the file
into documents (the file system and `DocumentProcessor` outcome is passed in
as `docs`), embed the texts and insert.  The catch-all `except` converts the
`RuntimeError` from lazy creation into `False`.  Returns
(success flag, collaborator-call trace, new `_initialized` flag). -/
def vcUpload (env : Env) (provisioned : Bool) (docs : List Document) :
    Bool × List CollabCall × Bool :=
  match ensureCollectionExists env provisioned with
  | (none, calls) => (false, calls, provisioned)
  | (some _, calls) =>
    if docs.isEmpty then (false, calls, true)
    else
      (env.insertOk,
       calls ++ [CollabCall.embedTexts (docs.map Document.content),
                 CollabCall.insertDocuments docs],
       true)

/-! ### RAG API query (`rag/rag_api.py`) -/

/-- One formatted result dictionary built by `RagAPI.query` from a
`SearchResult`. -/
structure FormattedResult where
  content : String
  score : ℚ
  metadata : List (String × MetaVal)
  source : MetaVal
  documentId : Option String
  filename : Option MetaVal
  chunkInfo : Option (MetaVal × MetaVal)
  deriving DecidableEq, Repr

/-- The result-formatting loop body of `RagAPI.query`. -/
def formatSearchResult (r : SearchResult) : FormattedResult :=
  { content := r.document.content
    score := r.score
    metadata := r.document.metadata
    source := (r.document.metadata.lookup "source").getD (MetaVal.str "unknown")
    documentId := r.document.id
    filename := r.document.metadata.lookup "file_name"
    chunkInfo := (r.document.metadata.lookup "chunk_index").map fun idx =>
      (idx, (r.document.metadata.lookup "total_chunks").getD (MetaVal.nat 1)) }

/-- `RagAPI.query`: an empty or whitespace-only question short-circuits to
the empty list (`if not question or not question.strip()`); otherwise the
stripped question is passed to `VectorClient.query` and the results are
formatted.  Returns (formatted results, collaborator-call trace). -/
def ragQuery (env : Env) (provisioned : Bool) (question : String)
    (limit : Nat) (minScore : ℚ) :
    List FormattedResult × List CollabCall :=
  if (pyStrip question).data = [] then ([], [])
  else
    let r := vcQuery env provisioned (pyStrip question) limit minScore
    (r.1.map formatSearchResult, r.2.1)

/-! ### Concrete collaborator environments used by counterexamples and
witnesses -/

/-- A sample stored document. -/
def docA : Document :=
  { content := "alpha", metadata := [("source", MetaVal.str "a.txt")] }

/-- An environment whose storage already has the collection and returns one
candidate with score 1 for any search. -/
def envOneHit : Env :=
  { dimension := 3
    collectionFound := true
    createOk := true
    embed := fun _ => [1]
    searchRes := fun _ _ => [{ document := docA, score := 1, distance := 0 }]
    insertOk := true }

/-- An environment where the collection is reported absent and creation
fails. -/
def envFailCreate : Env :=
  { dimension := 3
    collectionFound := false
    createOk := false
    embed := fun _ => [1]
    searchRes := fun _ _ => []
    insertOk := true }

/-! ### C1: empty-query short-circuit -/

/-- C1 (counterexample): the claim places the empty/whitespace short-circuit
in `VectorClient.query`, but `VectorClient.query` has no such check: on the
whitespace-only query `" "`, with a provisioned-check pending, it invokes the
embedding collaborator (`get_dimension`, `embed_text ""`) and the storage
collaborator (`collection_exists`, `search`), and returns the candidate the
storage reports rather than the empty list. -/
theorem vc_query_whitespace_invokes_collaborators :
    vcQuery envOneHit false " " 5 0 =
      ([{ document := docA, score := 1, distance := 0 }],
       [CollabCall.getDimension, CollabCall.collectionExistsQ,
        CollabCall.embedText "", CollabCall.storageSearch [1] 5],
       true) ∧
    (vcQuery envOneHit false " " 5 0).1 ≠ [] ∧
    (vcQuery envOneHit false " " 5 0).2.1 ≠ [] := by
  refine ⟨rfl, ?_, ?_⟩ <;> decide

/-- C1 (amended): the empty/whitespace short-circuit lives one layer up, in
`RagAPI.query`: for every collaborator environment and every question that is
empty or whitespace-only, `RagAPI.query` returns the empty list and makes no
collaborator call at all. -/
theorem rag_query_empty_question_short_circuits
    (env : Env) (provisioned : Bool) (question : String) (limit : Nat)
    (minScore : ℚ) (h : (pyStrip question).data = []) :
    ragQuery env provisioned question limit minScore = ([], []) := by
  unfold ragQuery
  simp [h]

/-- Witness for C1's amended theorem at the concrete whitespace question
`"  "`. -/
theorem rag_query_empty_question_short_circuits_witness :
    ragQuery envOneHit false "  " 5 0 = ([], []) :=
  rag_query_empty_question_short_circuits envOneHit false "  " 5 0 (by decide)

/-! ### C2: min-score filtering refines the unfiltered search -/

/-- Helper: filtering by `m` factors through filtering by `0` when all
scores are nonnegative. -/
theorem filter_minScore_through_zero (results : List SearchResult) (m : ℚ)
    (h : ∀ r ∈ results, 0 ≤ r.score) :
    results.filter (fun r => decide (m ≤ r.score)) =
      (results.filter (fun r => decide ((0 : ℚ) ≤ r.score))).filter
        (fun r => decide (m ≤ r.score)) := by
  induction results with
  | nil => rfl
  | cons r rs ih =>
    have hr : 0 ≤ r.score := h r (List.mem_cons_self r rs)
    have hrs : ∀ x ∈ rs, 0 ≤ x.score := fun x hx => h x (List.mem_cons_of_mem r hx)
    by_cases hm : m ≤ r.score <;>
      simp [List.filter_cons, hr, hm, ih hrs]

/-- C2: for every collaborator environment whose storage returns only
nonnegative similarity scores (the spec's data model has
`similarity_score ∈ [0,1]`), every provisioned state, query text and limit,
and every threshold `m`, `VectorClient.query` with `min_score = m` returns
exactly the candidates of the same query with `min_score = 0` whose score is
`≥ m`, and it is a sublist of the `min_score = 0` run (storage order
preserved, no re-sort). -/
theorem vc_query_min_score_filters_zero_run
    (env : Env) (provisioned : Bool) (queryText : String) (limit : Nat)
    (m : ℚ) (h : ∀ e l r, r ∈ env.searchRes e l → 0 ≤ r.score) :
    (vcQuery env provisioned queryText limit m).1 =
      ((vcQuery env provisioned queryText limit 0).1).filter
        (fun r => decide (m ≤ r.score)) ∧
    ((vcQuery env provisioned queryText limit m).1).Sublist
      ((vcQuery env provisioned queryText limit 0).1) := by
  unfold vcQuery
  rcases he : ensureCollectionExists env provisioned with ⟨o, calls⟩
  cases o with
  | none => exact ⟨rfl, List.Sublist.refl []⟩
  | some b =>
    simp only
    constructor
    · exact filter_minScore_through_zero _ m
        (fun r hr => h _ _ r hr)
    · rw [filter_minScore_through_zero _ m (fun r hr => h _ _ r hr)]
      exact List.filter_sublist _

/-- Witness for C2 at a concrete environment and threshold. -/
theorem vc_query_min_score_filters_zero_run_witness :
    (vcQuery envOneHit false "alpha" 5 (1/2)).1 =
      ((vcQuery envOneHit false "alpha" 5 0).1).filter
        (fun r => decide ((1/2 : ℚ) ≤ r.score)) ∧
    ((vcQuery envOneHit false "alpha" 5 (1/2)).1).Sublist
      ((vcQuery envOneHit false "alpha" 5 0).1) :=
  vc_query_min_score_filters_zero_run envOneHit false "alpha" 5 (1/2)
    (by intro e l r hr
        simp only [envOneHit, List.mem_singleton] at hr
        subst hr
        norm_num)

/-! ### C3: abbreviation expansion policy -/

/-- C3 (counterexample): on the question-answering path
(`QueryProcessor.expand_abbreviations`), the expansion REPLACES the matching
token instead of appending it: `expand_abbreviations("db and ai")` is
`"database and artificial intelligence"`, which does not contain the original
token `"db"` at all. -/
theorem expand_abbreviations_replaces_token :
    expandAbbreviations "db and ai" = "database and artificial intelligence" ∧
    strHasSubstring (expandAbbreviations "db and ai") "db" = false := by
  constructor <;> decide

/-- C3 (amended): the append-the-expansion policy holds only on the
Retriever path (`VectorClient._preprocess_query`): every token of the cleaned
query survives into the expanded token list, and if it is a key of the
abbreviation table its expansion is in the list as well; in particular
`_preprocess_query("db and ai") = "db database and ai artificial
intelligence"`.  On the question-answering path the expansion replaces the
token: `expand_abbreviations("db and ai") = "database and artificial
intelligence"`. -/
theorem preprocess_query_appends_expansions :
    (∀ (ws : List String) (w : String), w ∈ ws → w ∈ vcExpandWords ws) ∧
    (∀ (ws : List String) (w e : String), w ∈ ws →
      vcExpansions.lookup w = some e → e ∈ vcExpandWords ws) ∧
    preprocessQuery "db and ai" = "db database and ai artificial intelligence" ∧
    expandAbbreviations "db and ai" = "database and artificial intelligence" := by
  refine ⟨?_, ?_, by decide, by decide⟩
  · intro ws
    induction ws with
    | nil => intro w hw; cases hw
    | cons hd tl ih =>
      intro w hw
      rcases List.mem_cons.mp hw with h | h
      · subst h
        unfold vcExpandWords
        cases vcExpansions.lookup w <;> simp
      · unfold vcExpandWords
        cases vcExpansions.lookup hd <;> simp [ih w h]
  · intro ws
    induction ws with
    | nil => intro w e hw; cases hw
    | cons hd tl ih =>
      intro w e hw hl
      rcases List.mem_cons.mp hw with h | h
      · subst h
        unfold vcExpandWords
        rw [hl]
        simp
      · unfold vcExpandWords
        cases vcExpansions.lookup hd <;> simp [ih w e h hl]

/-- Witness for C3's amended theorem: both `"ml"` and its expansion appear in
the expansion of the token list `["ml"]`. -/
theorem preprocess_query_appends_expansions_witness :
    "ml" ∈ vcExpandWords ["ml"] ∧ "machine learning" ∈ vcExpandWords ["ml"] :=
  ⟨preprocess_query_appends_expansions.1 ["ml"] "ml" (by decide),
   preprocess_query_appends_expansions.2.1 ["ml"] "ml" "machine learning"
     (by decide) (by decide)⟩

/-! ### C5: failed lazy collection creation -/

/-- C5 (counterexample): when the storage reports the collection absent and
creation fails, `_ensure_collection_exists` does raise (`none` in the
embedding), but the operation that triggered it swallows the exception with
its catch-all handler: `query` returns the empty list and `upload` returns
`False` — the failure IS converted, contrary to the claim. -/
theorem failed_creation_swallowed_by_query_and_upload :
    (ensureCollectionExists envFailCreate false).1 = none ∧
    vcQuery envFailCreate false "hello" 5 0 =
      ([], [CollabCall.getDimension, CollabCall.collectionExistsQ,
            CollabCall.createCollection], false) ∧
    vcUpload envFailCreate false [docA] =
      (false, [CollabCall.getDimension, CollabCall.collectionExistsQ,
               CollabCall.createCollection], false) := by
  refine ⟨rfl, rfl, rfl⟩

/-- C5 (amended): if on first use the storage reports the collection absent
and creation fails, `_ensure_collection_exists` raises a `RuntimeError`
after exactly one creation attempt and leaves the client unprovisioned — but
the raising stops at the operation that triggered the lazy creation:
`VectorClient.query` catches it and returns the empty list, and
`VectorClient.upload` catches it and returns `False`. -/
theorem failed_creation_raises_then_caught
    (env : Env) (queryText : String) (limit : Nat) (minScore : ℚ)
    (docs : List Document)
    (habs : env.collectionFound = false) (hfail : env.createOk = false) :
    ensureCollectionExists env false =
      (none, [CollabCall.getDimension, CollabCall.collectionExistsQ,
              CollabCall.createCollection]) ∧
    vcQuery env false queryText limit minScore =
      ([], [CollabCall.getDimension, CollabCall.collectionExistsQ,
            CollabCall.createCollection], false) ∧
    vcUpload env false docs =
      (false, [CollabCall.getDimension, CollabCall.collectionExistsQ,
               CollabCall.createCollection], false) := by
  have he : ensureCollectionExists env false =
      (none, [CollabCall.getDimension, CollabCall.collectionExistsQ,
              CollabCall.createCollection]) := by
    unfold ensureCollectionExists
    simp [habs, hfail]
  refine ⟨he, ?_, ?_⟩
  · unfold vcQuery
    rw [he]
  · unfold vcUpload
    rw [he]

/-- Witness for C5's amended theorem at the concrete failing environment. -/
theorem failed_creation_raises_then_caught_witness :
    ensureCollectionExists envFailCreate false =
      (none, [CollabCall.getDimension, CollabCall.collectionExistsQ,
              CollabCall.createCollection]) ∧
    vcQuery envFailCreate false "hello" 5 0 =
      ([], [CollabCall.getDimension, CollabCall.collectionExistsQ,
            CollabCall.createCollection], false) ∧
    vcUpload envFailCreate false [docA] =
      (false, [CollabCall.getDimension, CollabCall.collectionExistsQ,
               CollabCall.createCollection], false) :=
  failed_creation_raises_then_caught envFailCreate "hello" 5 0 [docA] rfl rfl

/-! ### Batch operations (`RagAPI.batch_add_documents` /
`RagAPI.batch_remove_documents` in `rag/rag_api.py`)

The per-item operation (`add_document` / `remove_document`) always returns a
result dictionary whose `success` field the batch loop inspects; the
embedding abstracts an item's outcome as a Bool-valued oracle on the item. -/

/-- The result dictionary of a batch operation: overall `success` flag, the
three counters, the per-item success flags in input order, the top-level
`error` entry (present only for an empty input list) and the `errors` list
(`None` when no error message was recorded). -/
structure BatchResult where
  success : Bool
  total : Nat
  successful : Nat
  failed : Nat
  results : List Bool
  error : Option String
  errors : Option (List String)
  deriving DecidableEq, Repr

/-- The accumulation loop shared by both batch operations: walk the items in
order, counting successes and failures and recording an error message for
each failed item. -/
def batchLoop (itemOk : α → Bool) (errMsg : α → String) :
    List α → Nat × Nat × List Bool × List String
  | [] => (0, 0, [], [])
  | x :: xs =>
    let rest := batchLoop itemOk errMsg xs
    if itemOk x then (rest.1 + 1, rest.2.1, true :: rest.2.2.1, rest.2.2.2)
    else (rest.1, rest.2.1 + 1, false :: rest.2.2.1, errMsg x :: rest.2.2.2)

/-- `RagAPI.batch_add_documents`: an empty input list yields a failure result
with a non-null `error`; otherwise every file is processed independently,
`overall_success = (failed_count == 0)`, and `errors` is `None` exactly when
no item failed. -/
def batchAddDocuments (addOk : String → Bool) (filePaths : List String) :
    BatchResult :=
  if filePaths.isEmpty then
    { success := false, total := 0, successful := 0, failed := 0,
      results := [], error := some "No file paths provided", errors := none }
  else
    let r := batchLoop addOk (fun p => "Failed to add " ++ p) filePaths
    { success := r.2.1 = 0
      total := filePaths.length
      successful := r.1
      failed := r.2.1
      results := r.2.2.1
      error := none
      errors := if r.2.2.2.isEmpty then none else some r.2.2.2 }

/-- `RagAPI.batch_remove_documents`: same structure as
`batch_add_documents` over document ids. -/
def batchRemoveDocuments (removeOk : String → Bool) (documentIds : List String) :
    BatchResult :=
  if documentIds.isEmpty then
    { success := false, total := 0, successful := 0, failed := 0,
      results := [], error := some "No document IDs provided", errors := none }
  else
    let r := batchLoop removeOk (fun i => "Failed to remove " ++ i) documentIds
    { success := r.2.1 = 0
      total := documentIds.length
      successful := r.1
      failed := r.2.1
      results := r.2.2.1
      error := none
      errors := if r.2.2.2.isEmpty then none else some r.2.2.2 }

/-! ### C4: batch counters invariant -/

/-- C4 (counterexample): on the empty input list, `batch_remove_documents`
returns `failed = 0` yet `success = false`, so "the overall success flag is
true if and only if `failed == 0`" fails exactly at the empty list — the
very result the claim itself cites. -/
theorem batch_remove_empty_breaks_success_iff :
    (batchRemoveDocuments (fun _ => true) []).failed = 0 ∧
    (batchRemoveDocuments (fun _ => true) []).success = false ∧
    ¬ ((batchRemoveDocuments (fun _ => true) []).success = true ↔
        (batchRemoveDocuments (fun _ => true) []).failed = 0) := by
  refine ⟨rfl, rfl, ?_⟩
  intro h
  exact absurd (h.mpr rfl) (by decide)

/-- Helper: the counters of `batchLoop` add up to the number of items. -/
theorem batchLoop_counts_add (itemOk : α → Bool) (errMsg : α → String)
    (items : List α) :
    (batchLoop itemOk errMsg items).1 + (batchLoop itemOk errMsg items).2.1 =
      items.length := by
  induction items with
  | nil => rfl
  | cons x xs ih =>
    unfold batchLoop
    by_cases h : itemOk x = true <;> simp [h] <;> omega

/-- C4 (amended): for both batch operations and every input list and item
oracle, `successful + failed = total`; on a NON-empty input the overall
success flag is true iff `failed = 0`; the empty input list instead yields
`total = successful = failed = 0`, `success = false` and a non-null `error`
(so the iff direction `failed = 0 → success` does not extend to the empty
list). -/
theorem batch_counts_invariant (addOk removeOk : String → Bool)
    (filePaths documentIds : List String) :
    ((batchAddDocuments addOk filePaths).successful +
        (batchAddDocuments addOk filePaths).failed =
      (batchAddDocuments addOk filePaths).total) ∧
    ((batchRemoveDocuments removeOk documentIds).successful +
        (batchRemoveDocuments removeOk documentIds).failed =
      (batchRemoveDocuments removeOk documentIds).total) ∧
    (filePaths ≠ [] →
      ((batchAddDocuments addOk filePaths).success = true ↔
        (batchAddDocuments addOk filePaths).failed = 0)) ∧
    (documentIds ≠ [] →
      ((batchRemoveDocuments removeOk documentIds).success = true ↔
        (batchRemoveDocuments removeOk documentIds).failed = 0)) ∧
    (batchRemoveDocuments removeOk [] =
      { success := false, total := 0, successful := 0, failed := 0,
        results := [], error := some "No document IDs provided",
        errors := none }) ∧
    (batchAddDocuments addOk [] =
      { success := false, total := 0, successful := 0, failed := 0,
        results := [], error := some "No file paths provided",
        errors := none }) := by
  refine ⟨?_, ?_, ?_, ?_, rfl, rfl⟩
  · by_cases h : filePaths.isEmpty <;>
      simp [batchAddDocuments, h, batchLoop_counts_add]
  · by_cases h : documentIds.isEmpty <;>
      simp [batchRemoveDocuments, h, batchLoop_counts_add]
  · intro h
    have h' : filePaths.isEmpty = false := by
      simpa [List.isEmpty_iff] using h
    simp [batchAddDocuments, h']
  · intro h
    have h' : documentIds.isEmpty = false := by
      simpa [List.isEmpty_iff] using h
    simp [batchRemoveDocuments, h']

/-- Witness for C4's amended theorem at a two-element batch with one
failure. -/
theorem batch_counts_invariant_witness :
    ((batchAddDocuments (fun p => p = "good.txt") ["good.txt", "bad.txt"]).successful +
        (batchAddDocuments (fun p => p = "good.txt") ["good.txt", "bad.txt"]).failed =
      (batchAddDocuments (fun p => p = "good.txt") ["good.txt", "bad.txt"]).total) ∧
    ((batchAddDocuments (fun p => p = "good.txt") ["good.txt", "bad.txt"]).success = true ↔
      (batchAddDocuments (fun p => p = "good.txt") ["good.txt", "bad.txt"]).failed = 0) :=
  ⟨(batch_counts_invariant (fun p => p = "good.txt") (fun _ => true)
      ["good.txt", "bad.txt"] []).1,
   (batch_counts_invariant (fun p => p = "good.txt") (fun _ => true)
      ["good.txt", "bad.txt"] []).2.2.1 (by decide)⟩

/-! ### Python rounding (`round(x, 3)` and `f"{x:.3f}"`) -/

/-- Python's `round` to an integer: round half to even. -/
def roundHalfEven (q : ℚ) : ℤ :=
  let f := ⌊q⌋
  let frac := q - f
  if frac < 1/2 then f
  else if 1/2 < frac then f + 1
  else if f % 2 = 0 then f else f + 1

/-- Python `round(q, 3)`. -/
def pyRound3 (q : ℚ) : ℚ :=
  (roundHalfEven (q * 1000) : ℚ) / 1000

/-- Left-pad a remainder below 1000 to three digits. -/
def pad3 (r : Nat) : String :=
  (if r < 10 then "00" else if r < 100 then "0" else "") ++ toString r

/-- Python `f"{q:.3f}"`: fixed-point rendering with three decimals. -/
def formatFixed3 (q : ℚ) : String :=
  let n := roundHalfEven (q * 1000)
  let sign := if n < 0 then "-" else ""
  let a := n.natAbs
  sign ++ toString (a / 1000) ++ "." ++ pad3 (a % 1000)

/-! ### Enhanced search results (`models/qa_models.py`) -/

/-- `EnhancedSearchResult` dataclass: a candidate enriched with a context
excerpt, a citation and a relevance explanation. -/
structure EnhancedSearchResult where
  document : Document
  score : ℚ
  context : String
  citation : String
  relevanceExplanation : String
  distance : ℚ := 0
  deriving DecidableEq, Repr

/-- Python's `x or default` for an optional string (`None` and `""` are
falsy). -/
def pyOrStr (o : Option String) (default : String) : String :=
  match o with
  | none => default
  | some s => if s = "" then default else s

/-- `EnhancedSearchResult._generate_citation`: filename (or
"Unknown Document"), optionally the file type in parentheses, optionally the
ingestion date, joined by single spaces. -/
def generateCitation (document : Document) : String :=
  let filename := pyOrStr document.filename "Unknown Document"
  let fileType := pyOrStr document.fileType ""
  let timestamp :=
    match document.ingestionTimestamp with
    | none => ""
    | some (PyTimestamp.dt d) => d
    | some (PyTimestamp.iso s) => ⟨s.data.takeWhile (fun c => c ≠ 'T')⟩
  let citationParts :=
    [filename] ++
    (if fileType ≠ "" then ["(" ++ fileType ++ ")"] else []) ++
    (if timestamp ≠ "" then ["- " ++ timestamp] else [])
  String.intercalate " " citationParts

/-- `EnhancedSearchResult.__post_init__` as a smart constructor: reject a
score outside `[0,1]` (the dataclass raises `ValueError`), auto-generate the
citation when the given one is empty, and default the relevance explanation
to `"Relevance score: {score:.3f}"` when empty. -/
def mkEnhancedSearchResult (document : Document) (score : ℚ)
    (context citation relevanceExplanation : String) (distance : ℚ) :
    Option EnhancedSearchResult :=
  if 0 ≤ score ∧ score ≤ 1 then
    some { document := document
           score := score
           context := context
           citation := if citation = "" then generateCitation document else citation
           relevanceExplanation :=
             if relevanceExplanation = "" then
               "Relevance score: " ++ formatFixed3 score
             else relevanceExplanation
           distance := distance }
  else none

/-! ### Confidence scoring
(`QuestionAnsweringInterface._calculate_confidence_score` in
`rag/qa_interface.py`) -/

/-- `_calculate_confidence_score`, translated line by line: base confidence
is the top source's score; factual ×0.9; boolean ×1.1 capped at 1; if more
than one source and the mean squared deviation of the scores from the TOP
source's score (the code's `score_variance`) is below 0.01, ×1.05 capped at
1; if the top score is below 0.5, ×0.8; round to three decimals. -/
def calcConfidence (sources : List EnhancedSearchResult)
    (questionType : String) : ℚ :=
  match sources with
  | [] => 0
  | s0 :: rest =>
    let base1 :=
      if questionType = "factual" then s0.score * (9/10)
      else if questionType = "boolean" then min (s0.score * (11/10)) 1
      else s0.score
    let base2 :=
      if 1 < (s0 :: rest).length then
        if ((s0 :: rest).map (fun s => (s.score - s0.score) ^ 2)).sum /
             (((s0 :: rest).length : ℚ)) < 1/100 then
          min (base1 * (21/20)) 1
        else base1
      else base1
    let base3 := if s0.score < 1/2 then base2 * (4/5) else base2
    pyRound3 base3

/-- The quantity the code calls `score_variance`: the mean of the squared
deviations of all scores from the TOP source's score (not from the mean). -/
def codeScoreVariance (sources : List EnhancedSearchResult) : ℚ :=
  match sources with
  | [] => 0
  | s0 :: rest =>
    ((s0 :: rest).map (fun s => (s.score - s0.score) ^ 2)).sum /
      (((s0 :: rest).length : ℚ))

/-- Modelled from the spec: the population variance of a list of scores —
the mean of the squared deviations from the MEAN (the claim's wording). -/
def specPopVariance (scores : List ℚ) : ℚ :=
  let n : ℚ := scores.length
  let mean := scores.sum / n
  ((scores.map (fun s => (s - mean) ^ 2)).sum) / n

/-- The question-type adjustment step of `_calculate_confidence_score`. -/
def typeAdjust (sources : List EnhancedSearchResult) (questionType : String) : ℚ :=
  match sources with
  | [] => 0
  | s0 :: _ =>
    if questionType = "factual" then s0.score * (9/10)
    else if questionType = "boolean" then min (s0.score * (11/10)) 1
    else s0.score

/-- The consensus-boost step of `_calculate_confidence_score`. -/
def consensusAdjust (sources : List EnhancedSearchResult) (c : ℚ) : ℚ :=
  match sources with
  | [] => c
  | s0 :: rest =>
    if 1 < (s0 :: rest).length then
      if codeScoreVariance (s0 :: rest) < 1/100 then min (c * (21/20)) 1 else c
    else c

/-- The weak-top-match penalty step of `_calculate_confidence_score`. -/
def weakTopAdjust (sources : List EnhancedSearchResult) (c : ℚ) : ℚ :=
  match sources with
  | [] => c
  | s0 :: _ => if s0.score < 1/2 then c * (4/5) else c

/-- Bridge: the monolithic translation equals the composition of the three
steps followed by rounding (for a non-empty source list). -/
theorem calcConfidence_eq_steps (s0 : EnhancedSearchResult)
    (rest : List EnhancedSearchResult) (questionType : String) :
    calcConfidence (s0 :: rest) questionType =
      pyRound3 (weakTopAdjust (s0 :: rest)
        (consensusAdjust (s0 :: rest) (typeAdjust (s0 :: rest) questionType))) := by
  rfl

/-! ### C6: confidence bounds -/

/-- Round-half-even at three decimals maps `[0,1]` into `[0,1]`. -/
theorem pyRound3_mem_unit (q : ℚ) (h0 : 0 ≤ q) (h1 : q ≤ 1) :
    0 ≤ pyRound3 q ∧ pyRound3 q ≤ 1 := by
  have key : 0 ≤ roundHalfEven (q * 1000) ∧ roundHalfEven (q * 1000) ≤ 1000 := by
    unfold roundHalfEven
    have hq0 : (0 : ℚ) ≤ q * 1000 := by nlinarith
    have hq1 : q * 1000 ≤ 1000 := by nlinarith
    have hf0 : (0 : ℤ) ≤ ⌊q * 1000⌋ := Int.floor_nonneg.mpr hq0
    have hfle : ((⌊q * 1000⌋ : ℤ) : ℚ) ≤ q * 1000 := Int.floor_le _
    dsimp only
    split_ifs with hlt hgt heven
    · refine ⟨hf0, ?_⟩
      have : ((⌊q * 1000⌋ : ℤ) : ℚ) ≤ ((1000 : ℤ) : ℚ) := by push_cast; linarith
      exact_mod_cast this
    · refine ⟨by omega, ?_⟩
      have hlt' : ((⌊q * 1000⌋ : ℤ) : ℚ) < ((1000 : ℤ) : ℚ) := by push_cast; linarith
      have : ⌊q * 1000⌋ < 1000 := by exact_mod_cast hlt'
      omega
    · refine ⟨hf0, ?_⟩
      have heq : ((⌊q * 1000⌋ : ℤ) : ℚ) = q * 1000 - 1/2 := by linarith
      have hlt' : ((⌊q * 1000⌋ : ℤ) : ℚ) < ((1000 : ℤ) : ℚ) := by push_cast; linarith
      have : ⌊q * 1000⌋ < 1000 := by exact_mod_cast hlt'
      omega
    · refine ⟨by omega, ?_⟩
      have heq : ((⌊q * 1000⌋ : ℤ) : ℚ) = q * 1000 - 1/2 := by linarith
      have hlt' : ((⌊q * 1000⌋ : ℤ) : ℚ) < ((1000 : ℤ) : ℚ) := by push_cast; linarith
      have : ⌊q * 1000⌋ < 1000 := by exact_mod_cast hlt'
      omega
  unfold pyRound3
  constructor
  · have : (0 : ℚ) ≤ (roundHalfEven (q * 1000) : ℚ) := by exact_mod_cast key.1
    positivity
  · rw [div_le_one (by norm_num)]
    have : (roundHalfEven (q * 1000) : ℚ) ≤ ((1000 : ℤ) : ℚ) := by
      exact_mod_cast key.2
    simpa using this

/-- The question-type adjustment maps a top score in `[0,1]` into `[0,1]`. -/
theorem typeAdjust_mem_unit (s0 : EnhancedSearchResult)
    (rest : List EnhancedSearchResult) (questionType : String)
    (h0 : 0 ≤ s0.score) (h1 : s0.score ≤ 1) :
    0 ≤ typeAdjust (s0 :: rest) questionType ∧
      typeAdjust (s0 :: rest) questionType ≤ 1 := by
  unfold typeAdjust
  split_ifs
  · constructor <;> nlinarith
  · constructor
    · exact le_min (by nlinarith) zero_le_one
    · exact min_le_right _ _
  · exact ⟨h0, h1⟩

/-- The consensus boost keeps a confidence in `[0,1]` in `[0,1]`. -/
theorem consensusAdjust_mem_unit (sources : List EnhancedSearchResult)
    (c : ℚ) (h0 : 0 ≤ c) (h1 : c ≤ 1) :
    0 ≤ consensusAdjust sources c ∧ consensusAdjust sources c ≤ 1 := by
  cases sources with
  | nil => exact ⟨h0, h1⟩
  | cons s0 rest =>
    simp only [consensusAdjust]
    split_ifs
    · exact ⟨le_min (by nlinarith) zero_le_one, min_le_right _ _⟩
    · exact ⟨h0, h1⟩
    · exact ⟨h0, h1⟩

/-- The weak-top-match penalty keeps a confidence in `[0,1]` in `[0,1]`. -/
theorem weakTopAdjust_mem_unit (sources : List EnhancedSearchResult)
    (c : ℚ) (h0 : 0 ≤ c) (h1 : c ≤ 1) :
    0 ≤ weakTopAdjust sources c ∧ weakTopAdjust sources c ≤ 1 := by
  cases sources with
  | nil => exact ⟨h0, h1⟩
  | cons s0 rest =>
    simp only [weakTopAdjust]
    split_ifs
    · constructor <;> nlinarith
    · exact ⟨h0, h1⟩

/-- C6: for every source list whose similarity scores lie in `[0,1]` and
every question type, the confidence computed by
`_calculate_confidence_score` — including the type multipliers, the
consensus boost, the weak-top-match penalty and the rounding to three
decimals — lies in `[0,1]`. -/
theorem confidence_score_in_unit_interval
    (sources : List EnhancedSearchResult) (questionType : String)
    (h : ∀ s ∈ sources, 0 ≤ s.score ∧ s.score ≤ 1) :
    0 ≤ calcConfidence sources questionType ∧
      calcConfidence sources questionType ≤ 1 := by
  cases sources with
  | nil => exact ⟨le_refl 0, by norm_num [calcConfidence]⟩
  | cons s0 rest =>
    obtain ⟨h0, h1⟩ := h s0 (List.mem_cons_self s0 rest)
    rw [calcConfidence_eq_steps]
    have ht := typeAdjust_mem_unit s0 rest questionType h0 h1
    have hc := consensusAdjust_mem_unit (s0 :: rest) _ ht.1 ht.2
    have hw := weakTopAdjust_mem_unit (s0 :: rest) _ hc.1 hc.2
    exact pyRound3_mem_unit _ hw.1 hw.2

/-! ### Concrete enhanced search results for witnesses and counterexamples -/

/-- A source with similarity score 0.9. -/
def esrHigh : EnhancedSearchResult :=
  { document := docA, score := 9/10, context := "ctx", citation := "cit",
    relevanceExplanation := "rel", distance := 0 }

/-- A source with similarity score 0.72. -/
def esrMid : EnhancedSearchResult :=
  { document := docA, score := 18/25, context := "ctx", citation := "cit",
    relevanceExplanation := "rel", distance := 0 }

/-- Witness for C6 at a concrete two-source list. -/
theorem confidence_score_in_unit_interval_witness :
    0 ≤ calcConfidence [esrHigh, esrMid] "factual" ∧
      calcConfidence [esrHigh, esrMid] "factual" ≤ 1 :=
  confidence_score_in_unit_interval [esrHigh, esrMid] "factual"
    (by intro s hs
        rcases List.mem_cons.mp hs with h | h
        · subst h; constructor <;> norm_num [esrHigh]
        · rcases List.mem_cons.mp h with h' | h'
          · subst h'; constructor <;> norm_num [esrMid]
          · cases h')

/-! ### C7: the consensus-boost trigger -/

/-- C7 (counterexample): with sources scoring 0.9 and 0.72 the population
variance of the scores is 0.0081 < 0.01, so the claim demands the ×1.05
boost (confidence 0.945); but the code's `score_variance` — deviations from
the TOP score, not the mean — is 0.0162 ≥ 0.01, so no boost is applied and
the confidence stays 0.9. -/
theorem consensus_boost_not_population_variance :
    specPopVariance ([esrHigh, esrMid].map EnhancedSearchResult.score)
        = 81/10000 ∧
    (81/10000 : ℚ) < 1/100 ∧
    codeScoreVariance [esrHigh, esrMid] = 81/5000 ∧
    ¬ (codeScoreVariance [esrHigh, esrMid] < 1/100) ∧
    calcConfidence [esrHigh, esrMid] "general_question" = 9/10 ∧
    pyRound3 (min ((9/10) * (21/20)) 1) = 189/200 ∧
    (9/10 : ℚ) ≠ 189/200 := by
  have hfloor : ∀ n : ℤ, roundHalfEven (n : ℚ) = n := by
    intro n
    unfold roundHalfEven
    dsimp only
    rw [Int.floor_intCast]
    norm_num
  have h900 : pyRound3 (9/10) = 9/10 := by
    unfold pyRound3
    have he : ((9:ℚ)/10) * 1000 = ((900 : ℤ) : ℚ) := by norm_num
    rw [he, hfloor]
    norm_num
  have h945 : pyRound3 (min ((9/10 : ℚ) * (21/20)) 1) = 189/200 := by
    have hm : min ((9/10 : ℚ) * (21/20)) 1 = 189/200 := by
      rw [min_eq_left (by norm_num)]
      norm_num
    unfold pyRound3
    rw [hm]
    have he : ((189:ℚ)/200) * 1000 = ((945 : ℤ) : ℚ) := by norm_num
    rw [he, hfloor]
    norm_num
  refine ⟨?_, by norm_num, ?_, ?_, ?_, h945, by norm_num⟩
  · norm_num [specPopVariance, esrHigh, esrMid]
  · norm_num [codeScoreVariance, esrHigh, esrMid]
  · norm_num [codeScoreVariance, esrHigh, esrMid]
  · rw [calcConfidence_eq_steps]
    have h1 : typeAdjust [esrHigh, esrMid] "general_question" = 9/10 := by
      simp only [typeAdjust]
      rw [if_neg (by decide), if_neg (by decide)]
      rfl
    have h2 : consensusAdjust [esrHigh, esrMid] (9/10) = 9/10 := by
      simp only [consensusAdjust]
      rw [if_pos (by norm_num), if_neg]
      norm_num [codeScoreVariance, esrHigh, esrMid]
    have h3 : weakTopAdjust [esrHigh, esrMid] (9/10 : ℚ) = 9/10 := by
      simp only [weakTopAdjust]
      rw [if_neg]
      norm_num [esrHigh]
    rw [h1, h2, h3, h900]

/-- C7 (amended): with at least two sources, the ×1.05-capped consensus
boost is applied exactly when the code's `score_variance` — the mean squared
deviation of the scores from the TOP source's score — is below 0.01;
otherwise the confidence pipeline runs without the boost. -/
theorem consensus_boost_uses_deviation_from_top
    (sources : List EnhancedSearchResult) (questionType : String)
    (h2 : 2 ≤ sources.length) :
    (codeScoreVariance sources < 1/100 →
      calcConfidence sources questionType =
        pyRound3 (weakTopAdjust sources
          (min (typeAdjust sources questionType * (21/20)) 1))) ∧
    (1/100 ≤ codeScoreVariance sources →
      calcConfidence sources questionType =
        pyRound3 (weakTopAdjust sources (typeAdjust sources questionType))) := by
  cases sources with
  | nil => simp at h2
  | cons s0 rest =>
    have hlen : 1 < (s0 :: rest).length := by
      simpa using h2
    rw [calcConfidence_eq_steps]
    simp only [consensusAdjust]
    constructor
    · intro hv
      rw [if_pos hlen, if_pos hv]
    · intro hv
      rw [if_pos hlen, if_neg (not_lt.mpr hv)]

/-- Witness for C7's amended theorem: two identical scores have zero
`score_variance`, so the boost fires. -/
theorem consensus_boost_uses_deviation_from_top_witness :
    codeScoreVariance [esrHigh, esrHigh] < 1/100 ∧
    calcConfidence [esrHigh, esrHigh] "general_question" =
      pyRound3 (weakTopAdjust [esrHigh, esrHigh]
        (min (typeAdjust [esrHigh, esrHigh] "general_question" * (21/20)) 1)) :=
  ⟨by norm_num [codeScoreVariance, esrHigh],
   (consensus_boost_uses_deviation_from_top [esrHigh, esrHigh]
      "general_question" (by norm_num)).1
     (by norm_num [codeScoreVariance, esrHigh])⟩

/-! ### C10: citation and relevance explanation are non-empty -/

/-- A non-empty string has positive length. -/
theorem pos_length_of_ne_empty (a : String) (ha : a ≠ "") : 0 < a.length := by
  cases a with
  | mk data =>
    cases data with
    | nil => exact absurd rfl ha
    | cons c cs => simp [String.length]

/-- Appending anything to a non-empty string stays non-empty. -/
theorem append_left_ne_empty (a b : String) (ha : a ≠ "") : a ++ b ≠ "" := by
  intro h
  have hlen := congrArg String.length h
  rw [String.length_append, String.length_empty] at hlen
  have := pos_length_of_ne_empty a ha
  omega

/-- The accumulator of `String.intercalate.go` only grows. -/
theorem intercalate_go_length_le (s : String) (l : List String) :
    ∀ acc : String, acc.length ≤ (String.intercalate.go acc s l).length := by
  induction l with
  | nil => intro acc; simp [String.intercalate.go]
  | cons a as ih =>
    intro acc
    have hstep : acc.length ≤ (acc ++ s ++ a).length := by
      simp [String.length_append]
      omega
    exact le_trans hstep (ih (acc ++ s ++ a))

/-- Joining a list whose head is non-empty gives a non-empty string. -/
theorem intercalate_cons_ne_empty (s a : String) (l : List String)
    (ha : a ≠ "") : String.intercalate s (a :: l) ≠ "" := by
  intro h
  have hlen : 0 < a.length := pos_length_of_ne_empty a ha
  have hle : a.length ≤ (String.intercalate s (a :: l)).length := by
    show a.length ≤ (String.intercalate.go a s l).length
    exact intercalate_go_length_le s l a
  rw [h] at hle
  simp [String.length_empty] at hle
  omega

/-- `pyOrStr` with a non-empty default is non-empty. -/
theorem pyOrStr_ne_empty (o : Option String) (d : String) (hd : d ≠ "") :
    pyOrStr o d ≠ "" := by
  cases o with
  | none => exact hd
  | some s =>
    simp only [pyOrStr]
    split_ifs with hs
    · exact hd
    · exact hs

/-- The auto-generated citation is never empty: its first joined part is the
filename or the `"Unknown Document"` fallback. -/
theorem generateCitation_ne_empty (document : Document) :
    generateCitation document ≠ "" := by
  unfold generateCitation
  dsimp only
  rw [List.singleton_append]
  exact intercalate_cons_ne_empty _ _ _
    (pyOrStr_ne_empty document.filename "Unknown Document" (by decide))

/-- C10: every successfully constructed `EnhancedSearchResult` (score in
`[0,1]`) has a non-empty citation — auto-generated from the document's
filename (falling back to "Unknown Document"), optional file type and
optional ingestion date when the given citation is empty — and a non-empty
relevance explanation. -/
theorem enhanced_result_fields_ne_empty (document : Document) (score : ℚ)
    (context citation relevanceExplanation : String) (distance : ℚ)
    (r : EnhancedSearchResult)
    (h : mkEnhancedSearchResult document score context citation
          relevanceExplanation distance = some r) :
    r.citation ≠ "" ∧ r.relevanceExplanation ≠ "" := by
  unfold mkEnhancedSearchResult at h
  split_ifs at h <;>
    first
    | exact Option.noConfusion h
    | (injection h with h
       subst h
       dsimp only
       constructor <;>
         first
         | exact generateCitation_ne_empty document
         | exact append_left_ne_empty "Relevance score: " _ (by decide)
         | assumption)

/-- Witness for C10 at a concrete construction with empty citation and
explanation. -/
theorem enhanced_result_fields_ne_empty_witness :
    ∃ r, mkEnhancedSearchResult docA (1/2) "ctx" "" "" 0 = some r ∧
      r.citation ≠ "" ∧ r.relevanceExplanation ≠ "" := by
  have h : mkEnhancedSearchResult docA (1/2) "ctx" "" "" 0 =
      some { document := docA, score := 1/2, context := "ctx",
             citation := generateCitation docA,
             relevanceExplanation := "Relevance score: " ++ formatFixed3 (1/2),
             distance := 0 } := by
    unfold mkEnhancedSearchResult
    rw [if_pos (by norm_num)]
    simp
  exact ⟨_, h, enhanced_result_fields_ne_empty docA (1/2) "ctx" "" "" 0 _ h⟩

/-! ### Text chunking (`DocumentProcessor` in
`vectordb/processor/document_processor.py`) -/

/-- Helper for `collapseSpaces`: `inRun` marks that the current space run has
already emitted its single replacement space. -/
def collapseSpacesAux : Bool → List Char → List Char
  | _, [] => []
  | inRun, c :: cs =>
    if c = ' ' then
      if inRun then collapseSpacesAux true cs
      else ' ' :: collapseSpacesAux true cs
    else c :: collapseSpacesAux false cs

/-- `re.sub(r' +', ' ', ·)`: replace every maximal run of SPACES (only
spaces, not general whitespace) by a single space. -/
def collapseSpaces (l : List Char) : List Char :=
  collapseSpacesAux false l

/-- One step of `re.sub(r'\n\s*\n\s*\n+', '\n\n', ·)`, on fuel.  The pattern
matches, starting at a newline, a whitespace-only span that contains at
least three newlines; with Python's greedy quantifiers the match extends to
the LAST newline of the maximal whitespace run starting at that position
(the final `\n+` can only take newlines, so trailing non-newline whitespace
is left out); the match is replaced by exactly two newlines, and scanning
resumes after it.  The fuel is an upper bound on the number of characters
still to be consumed; each step consumes at least one character, so
`l.length` fuel never runs out. -/
def subTripleNlAux : Nat → List Char → List Char
  | _, [] => []
  | 0, l => l
  | fuel + 1, c :: cs =>
    if c = '\n' then
      let run := (c :: cs).takeWhile pySpace
      if 3 ≤ (run.filter (fun d => d = '\n')).length then
        let m := (run.reverse.dropWhile (fun d => d ≠ '\n')).length
        '\n' :: '\n' :: subTripleNlAux fuel ((c :: cs).drop m)
      else c :: subTripleNlAux fuel cs
    else c :: subTripleNlAux fuel cs

/-- `re.sub(r'\n\s*\n\s*\n+', '\n\n', ·)`. -/
def subTripleNewlines (l : List Char) : List Char :=
  subTripleNlAux l.length l

/-- `DocumentProcessor._normalize_text`: collapse space runs, collapse three
or more (whitespace-separated) newlines to a paragraph break, and strip. -/
def normalizeText (text : String) : String :=
  ⟨stripChars (subTripleNewlines (collapseSpaces text.data))⟩

/-- `text[i:i+len(pat)] == pat` (Python slicing clamps at the end). -/
def sliceEq (text : List Char) (i : Nat) (pat : List Char) : Bool :=
  (text.drop i).take pat.length == pat

/-- The inner backward scan of `_find_optimal_boundary`:
`for i in range(position, position - steps, -1)` testing `text[i:i+|pat|] ==
pat`, returning the first (largest) matching `i`. -/
def searchFrom (text pat : List Char) : Nat → Nat → Option Nat
  | _, 0 => none
  | i, steps + 1 =>
    if sliceEq text i pat then some i
    else searchFrom text pat (i - 1) steps

/-- The boundary priority table of `_find_optimal_boundary`:
(pattern, offset) in decreasing priority. -/
def chunkBoundaries : List (String × Nat) :=
  [("\n\n", 0), ("\n", 0), (". ", 2), ("! ", 2), ("? ", 2), (", ", 1), (" ", 0)]

/-- `DocumentProcessor._find_optimal_boundary`: scan backward up to 200
characters from `position`, trying each boundary pattern in priority order;
on a hit at index `i` return `i + len(pattern) + offset`; if nothing is
found return `position` unchanged. -/
def findOptimalBoundary (text : List Char) (position : Nat) : Nat :=
  let searchRange := min 200 position
  match chunkBoundaries.findSome? (fun b =>
    (searchFrom text b.1.data position searchRange).map
      (fun i => i + b.1.data.length + b.2)) with
  | some r => r
  | none => position

/-- Python `{**base, **extra}` for association lists whose own keys are
distinct: base entries in order (with values overridden by `extra` on key
collisions) followed by the genuinely new entries of `extra` in order. -/
def dictMerge (base extra : List (String × MetaVal)) :
    List (String × MetaVal) :=
  (base.map fun p =>
    match extra.lookup p.1 with
    | some v => (p.1, v)
    | none => p) ++
  extra.filter fun q => decide (base.lookup q.1 = none)

/-- The sliding-window loop of `_chunk_text` (`while start < len(text)`),
on fuel.  Each iteration strictly advances `start` by at least one, so
`text.length + 1` fuel is never exhausted: window end is
`start + chunk_size`, moved to an optimal boundary when not already at
end-of-text; the stripped slice is emitted only when longer than 10
characters; the next start is `end - overlap`, forced forward by
`max(1, chunk_size / 2)` whenever that would not advance. -/
def chunkLoop (chunkSize overlap : Nat) (text : List Char)
    (base : List (String × MetaVal)) :
    Nat → Nat → Nat → List Document
  | 0, _, _ => []
  | fuel + 1, start, chunkIndex =>
    if start < text.length then
      let e0 := start + chunkSize
      let e1 := if e0 < text.length then findOptimalBoundary text e0
                else text.length
      let chunkContent := stripChars ((text.drop start).take (e1 - start))
      let nextStart := if e1 - overlap ≤ start then
                         start + max 1 (chunkSize / 2)
                       else e1 - overlap
      if chunkContent ≠ [] ∧ 10 < chunkContent.length then
        { content := ⟨chunkContent⟩
          metadata := dictMerge base
            [("chunk_index", MetaVal.nat chunkIndex),
             ("start_char", MetaVal.nat start),
             ("end_char", MetaVal.nat e1),
             ("chunk_length", MetaVal.nat chunkContent.length)] } ::
          chunkLoop chunkSize overlap text base fuel nextStart (chunkIndex + 1)
      else chunkLoop chunkSize overlap text base fuel nextStart chunkIndex
    else []

/-- `DocumentProcessor._chunk_text`: whitespace-only text yields no
segments; text whose RAW length is at most `chunk_size` yields a single
segment containing the RAW text stripped (whitespace normalization is NOT
applied on this path); otherwise the text is normalized and cut by the
sliding-window loop, and every produced segment is stamped with the total
segment count. -/
def chunkText (chunkSize overlap : Nat) (text : String)
    (base : List (String × MetaVal)) : List Document :=
  if stripChars text.data = [] then []
  else if text.data.length ≤ chunkSize then
    [{ content := ⟨stripChars text.data⟩
       metadata := dictMerge base
         [("chunk_index", MetaVal.nat 0), ("total_chunks", MetaVal.nat 1)] }]
  else
    let t := (normalizeText text).data
    let chunks := chunkLoop chunkSize overlap t base (t.length + 1) 0 0
    chunks.map (fun c =>
      { c with metadata := dictMerge c.metadata
                 [("total_chunks", MetaVal.nat chunks.length)] })

/-! ### Stripping is idempotent (needed for "non-empty after trimming") -/

/-- No leading character of `l` satisfies `p`. -/
def noLead (p : Char → Bool) : List Char → Prop
  | [] => True
  | c :: _ => p c = false

/-- Dropping from the end of a character list. -/
def dropTrail (p : Char → Bool) (l : List Char) : List Char :=
  (l.reverse.dropWhile p).reverse

/-- `dropWhile` cannot eat past a final element that fails the predicate. -/
theorem dropWhile_append_singleton (p : Char → Bool) (c : Char)
    (h : p c = false) (X : List Char) :
    (X ++ [c]).dropWhile p = X.dropWhile p ++ [c] := by
  induction X with
  | nil => simp [List.dropWhile, h]
  | cons x xs ih =>
    by_cases hx : p x = true
    · simp [List.dropWhile_cons, hx, ih]
    · simp at hx
      simp [List.dropWhile_cons, hx, h]

/-- After `dropWhile p`, no leading character satisfies `p`. -/
theorem noLead_dropWhile (p : Char → Bool) (l : List Char) :
    noLead p (l.dropWhile p) := by
  induction l with
  | nil => trivial
  | cons c cs ih =>
    by_cases hc : p c = true
    · simpa [List.dropWhile_cons, hc] using ih
    · simp at hc
      simp [List.dropWhile_cons, hc, noLead]

/-- `dropWhile p` is the identity when nothing leads with `p`. -/
theorem dropWhile_eq_self_of_noLead (p : Char → Bool) (l : List Char)
    (h : noLead p l) : l.dropWhile p = l := by
  cases l with
  | nil => rfl
  | cons c cs =>
    simp only [noLead] at h
    simp [List.dropWhile_cons, h]

/-- `dropTrail` keeps the head (it only removes from the end). -/
theorem noLead_dropTrail (p : Char → Bool) (l : List Char)
    (h : noLead p l) : noLead p (dropTrail p l) := by
  cases l with
  | nil => trivial
  | cons c cs =>
    simp only [noLead] at h
    unfold dropTrail
    rw [List.reverse_cons, dropWhile_append_singleton p c h, List.reverse_append]
    simpa [noLead] using h

/-- `dropTrail` is the identity when nothing trails with `p`. -/
theorem dropTrail_eq_self (p : Char → Bool) (l : List Char)
    (h : noLead p l.reverse) : dropTrail p l = l := by
  unfold dropTrail
  rw [dropWhile_eq_self_of_noLead p l.reverse h, List.reverse_reverse]

/-- Python `strip()` is idempotent. -/
theorem stripChars_idem (l : List Char) :
    stripChars (stripChars l) = stripChars l := by
  have hrepr : ∀ m : List Char, stripChars m = dropTrail pySpace (m.dropWhile pySpace) :=
    fun m => rfl
  have h1 : noLead pySpace (stripChars l) :=
    noLead_dropTrail pySpace _ (noLead_dropWhile pySpace l)
  have h2 : noLead pySpace (stripChars l).reverse := by
    have : (stripChars l).reverse = (l.dropWhile pySpace).reverse.dropWhile pySpace := by
      unfold stripChars
      rw [List.reverse_reverse]
    rw [this]
    exact noLead_dropWhile pySpace _
  rw [hrepr (stripChars l), dropWhile_eq_self_of_noLead pySpace _ h1,
      dropTrail_eq_self pySpace _ h2]

/-! ### C9: emitted segments are non-empty and, on the sliding-window path,
longer than 10 characters -/

/-- Invariant of the sliding-window loop: every emitted segment's content is
already stripped, non-empty, and longer than 10 characters. -/
theorem chunkLoop_content_invariant (chunkSize overlap : Nat)
    (text : List Char) (base : List (String × MetaVal)) :
    ∀ (fuel start chunkIndex : Nat) (d : Document),
      d ∈ chunkLoop chunkSize overlap text base fuel start chunkIndex →
        d.content.data ≠ [] ∧ 10 < d.content.data.length ∧
          stripChars d.content.data = d.content.data := by
  intro fuel
  induction fuel with
  | zero =>
    intro start chunkIndex d hd
    simp [chunkLoop] at hd
  | succ fuel ih =>
    intro start chunkIndex d hd
    rw [chunkLoop] at hd
    dsimp only at hd
    split_ifs at hd <;>
      first
      | exact absurd hd (List.not_mem_nil d)
      | exact ih _ _ d hd
      | (rename_i h1 h2 h3 h4
         rcases List.mem_cons.mp hd with rfl | hd
         exacts [⟨h3.1, h3.2, stripChars_idem _⟩, ih _ _ d hd])

/-- C9 (counterexample): a text that fits within `chunk_size` is returned as
a single segment with NO minimum-length check: chunking `"ab"` yields one
segment of trimmed length 2 < 10. -/
theorem chunk_short_single_segment_emitted :
    chunkText 1000 100 "ab" [] =
      [{ content := "ab",
         metadata := [("chunk_index", MetaVal.nat 0),
                      ("total_chunks", MetaVal.nat 1)] }] ∧
    (stripChars ("ab" : String).data).length = 2 ∧ (2 : Nat) < 10 := by
  refine ⟨rfl, rfl, by decide⟩

/-- C9 (amended): every returned Segment's content is non-empty after
trimming (and is in fact already trimmed); on the sliding-window path — i.e.
when the raw text is longer than `chunk_size` — every Segment's trimmed
content is longer than 10 characters (slices of trimmed length ≤ 10 are
skipped); the single-segment path guarantees only non-emptiness. -/
theorem chunk_segments_trimmed_nonempty (chunkSize overlap : Nat)
    (text : String) (base : List (String × MetaVal)) (d : Document)
    (hd : d ∈ chunkText chunkSize overlap text base) :
    stripChars d.content.data = d.content.data ∧
    stripChars d.content.data ≠ [] ∧
    (chunkSize < text.data.length →
      10 < (stripChars d.content.data).length) := by
  unfold chunkText at hd
  split_ifs at hd with hempty hlen
  · cases hd
  · rcases List.mem_singleton.mp hd with rfl
    dsimp only
    refine ⟨stripChars_idem _, ?_, ?_⟩
    · rw [stripChars_idem]
      exact hempty
    · intro hcontra
      exact absurd hlen (not_le.mpr hcontra)
  · rcases List.mem_map.mp hd with ⟨c, hc, rfl⟩
    obtain ⟨hne, hgt, hstrip⟩ :=
      chunkLoop_content_invariant chunkSize overlap _ base _ _ _ c hc
    exact ⟨hstrip, by rw [hstrip]; exact hne,
           fun _ => by rw [hstrip]; exact hgt⟩

/-- Witness for C9 at a 26-character text with `chunk_size = 15`. -/
theorem chunk_segments_trimmed_nonempty_witness :
    stripChars (String.data "abcdefghijklmno") = (String.data "abcdefghijklmno") ∧
    stripChars (String.data "abcdefghijklmno") ≠ [] ∧
    (15 < ("abcdefghijklmnopqrstuvwxyz" : String).data.length →
      10 < (stripChars (String.data "abcdefghijklmno")).length) :=
  chunk_segments_trimmed_nonempty 15 3 "abcdefghijklmnopqrstuvwxyz" []
    { content := "abcdefghijklmno",
      metadata := [("chunk_index", MetaVal.nat 0),
                   ("start_char", MetaVal.nat 0),
                   ("end_char", MetaVal.nat 15),
                   ("chunk_length", MetaVal.nat 15),
                   ("total_chunks", MetaVal.nat 2)] }
    (by decide)

/-! ### C8: the single-segment fast path uses the raw text -/

/-- C8 (counterexample): the claim says whitespace normalization runs FIRST
and a single Segment spans the NORMALIZED text whenever its length fits
`chunk_size`.  In the code the fast path fires on the RAW length and returns
the RAW text stripped: chunking `"a  b"` (double space, raw length 4 ≤ 1000,
normalized form `"a b"`) returns a segment with content `"a  b"` ≠ `"a b"`.
Conversely a 22-character text of normalized length 3 ≤ 10 is NOT returned
as one segment by the `chunk_size = 10` chunker: the loop runs and drops
everything, returning no segment at all. -/
theorem chunk_fast_path_skips_normalization :
    chunkText 1000 100 "a  b" [] =
      [{ content := "a  b",
         metadata := [("chunk_index", MetaVal.nat 0),
                      ("total_chunks", MetaVal.nat 1)] }] ∧
    normalizeText "a  b" = "a b" ∧
    ("a  b" : String) ≠ "a b" ∧
    chunkText 10 100 "a                    b" [] = [] ∧
    (normalizeText "a                    b").data.length ≤ 10 := by
  refine ⟨rfl, rfl, by decide, rfl, by decide⟩

/-- C8 (amended): the single-segment decision is made on the RAW text,
before any normalization: whenever the raw text has non-whitespace content
and its raw length is at most `chunk_size`, the chunker returns exactly one
Segment whose content is the raw text stripped of leading/trailing
whitespace (interior whitespace untouched); whitespace normalization is
applied only on the sliding-window path. -/
theorem chunk_single_segment_spans_raw_text (chunkSize overlap : Nat)
    (text : String) (base : List (String × MetaVal))
    (hne : stripChars text.data ≠ []) (hlen : text.data.length ≤ chunkSize) :
    chunkText chunkSize overlap text base =
      [{ content := ⟨stripChars text.data⟩
         metadata := dictMerge base
           [("chunk_index", MetaVal.nat 0),
            ("total_chunks", MetaVal.nat 1)] }] := by
  unfold chunkText
  rw [if_neg hne, if_pos hlen]

/-- Witness for C8's amended theorem at `"hello world"`. -/
theorem chunk_single_segment_spans_raw_text_witness :
    chunkText 1000 100 "hello world" [] =
      [{ content := ⟨stripChars ("hello world" : String).data⟩
         metadata := dictMerge []
           [("chunk_index", MetaVal.nat 0),
            ("total_chunks", MetaVal.nat 1)] }] :=
  chunk_single_segment_spans_raw_text 1000 100 "hello world" []
    (by decide) (by decide)
